import Mathlib

/-!
Shallow embedding of the meeting-bot session orchestrator of
`src/services/bot-service/index.js` (primary implementation) and
`src/services/bot-service/index_puppeteer_backup.js` (ffmpeg merge variant).

The registry `sessions` is a JS `Map` keyed by session id; we model it as an
association list in insertion order, which is exactly the iteration order of a
JS `Map`.  Statuses are the string constants used by the code.  Webhook
deliveries (`notifyMainApp`) are modelled as emitted events; the external
collaborators (browser join automation, ffmpeg merge, the STT service, the
filesystem listing of the chunk directory) are parameters of the functions
that await them, carrying their observable outcome.
-/

namespace BotService

/-- Lifecycle status strings stored in `session.status` by the bot service. -/
inductive Status where
  | joining
  | joined
  | recording
  | processing
  | completed
  | error
deriving DecidableEq, Repr

/-- Transcript entry shape produced by the service
(`{ start_time, end_time, speaker_id, text }`). -/
structure TranscriptEntry where
  start_time : Nat
  end_time : Nat
  speaker_id : String
  text : String
deriving DecidableEq, Repr

/-- Session record as created by `app.post('/join')` and mutated by
`runBot` / `startRecording` / `handleMeetingEnd` in `index.js`.
`browserOpen` models whether `session.browser` currently holds an open
browser handle, `hasInterval` whether `session.chunkInterval` is an
armed timer. -/
structure Session where
  status : Status
  meetingId : String
  mode : String
  joinUrl : String
  recordAudio : Bool
  browserOpen : Bool := false
  hasInterval : Bool := false
  speakerLog : List (String × Nat) := []
  transcript : Option (List TranscriptEntry) := none
  duration : Option Nat := none
deriving DecidableEq, Repr

/-- The `sessions` map: association list of (sessionId, record) in insertion
order, mirroring JS `Map` iteration order.  Keys are unique, as in a `Map`. -/
abbrev Registry := List (String × Session)

/-- `sessions.get(sid)` — first entry with the given key. -/
def Registry.get? : Registry → String → Option Session
  | [], _ => none
  | p :: ps, sid => if p.1 = sid then some p.2 else Registry.get? ps sid

/-- `sessions.has(sid)`. -/
def Registry.hasId (reg : Registry) (sid : String) : Bool :=
  (Registry.get? reg sid).isSome

/-- `sessions.set(sid, v)` — replace in place if present, else append
(JS `Map.set` keeps the original insertion position of an existing key). -/
def Registry.set : Registry → String → Session → Registry
  | [], sid, v => [(sid, v)]
  | p :: ps, sid, v =>
    if p.1 = sid then (sid, v) :: ps else p :: Registry.set ps sid v

/-- `sessions.delete(sid)` — the entry with this key is removed. -/
def Registry.erase (reg : Registry) (sid : String) : Registry :=
  reg.filter (fun p => !(p.1 = sid : Bool))

/-- Predicate of the dedup scan in `app.post('/join')` (index.js:84-93):
`sess.meetingId === meetingId && sess.status !== 'completed' && sess.status !== 'error'`. -/
def attachPred (meetingId : String) (p : String × Session) : Bool :=
  p.2.meetingId = meetingId && !(p.2.status = Status.completed : Bool)
    && !(p.2.status = Status.error : Bool)

/-- The dedup scan: first session in the registry that is in the requested
meeting and non-terminal; returns its session id (index.js:84-93). -/
def findActiveByMeeting (reg : Registry) (meetingId : String) : Option String :=
  (reg.find? (attachPred meetingId)).map (fun p => p.1)

/-- The capacity count in `app.post('/join')` (index.js:101):
`Array.from(sessions.values()).filter(s => s.status !== 'completed' && s.status !== 'error').length`. -/
def activeBots (reg : Registry) : Nat :=
  (reg.filter (fun p =>
    !(p.2.status = Status.completed : Bool) && !(p.2.status = Status.error : Bool))).length

/-- Body of a `POST /join` request (index.js:68-76). -/
structure JoinRequest where
  sessionId : String
  joinUrl : String
  meetingId : String
  mode : String
  recordAudio : Bool
deriving DecidableEq, Repr

/-- The `if (!joinUrl || !sessionId)` guard (index.js:78): both strings must be
truthy, i.e. nonempty. -/
def validRequest (req : JoinRequest) : Bool :=
  !(req.joinUrl = "" : Bool) && !(req.sessionId = "" : Bool)

/-- Responses of `POST /join` (index.js:79, 87-91, 96, 104-107, 123). -/
inductive JoinResponse where
  | badRequest
  | attached (sessionId : String)
  | alreadyActive (sessionId : String)
  | busy
  | initiated (sessionId : String)
deriving DecidableEq, Repr

/-- The fresh record inserted by `sessions.set(sessionId, {...})`
(index.js:112-120): status `joining`, fields copied from the request. -/
def newSession (req : JoinRequest) : Session :=
  { status := Status.joining
    meetingId := req.meetingId
    mode := req.mode
    joinUrl := req.joinUrl
    recordAudio := req.recordAudio }

/-- The `POST /join` handler (index.js:67-124): validity guard, dedup scan
(attach), `already_active` short-circuit, capacity check against `MAX_BOTS`,
then insertion of a fresh `joining` session. -/
def joinHandler (maxBots : Nat) (req : JoinRequest) (reg : Registry) :
    JoinResponse × Registry :=
  if !(validRequest req) then (JoinResponse.badRequest, reg)
  else
    match findActiveByMeeting reg req.meetingId with
    | some sid => (JoinResponse.attached sid, reg)
    | none =>
      if Registry.hasId reg req.sessionId then
        (JoinResponse.alreadyActive req.sessionId, reg)
      else if maxBots ≤ activeBots reg then
        (JoinResponse.busy, reg)
      else
        (JoinResponse.initiated req.sessionId,
         Registry.set reg req.sessionId (newSession req))

/-- Fold a sequence of admission requests through the handler, keeping only
the registry. -/
def applyJoins (maxBots : Nat) (reqs : List JoinRequest) (reg : Registry) :
    Registry :=
  reqs.foldl (fun r q => (joinHandler maxBots q r).2) reg

/-- Predicate of the `GET /status-by-meeting/:meetingId` scan (index.js:144-148):
`sess.meetingId === meetingId && sess.status !== 'completed'` — note that,
unlike `attachPred`, the status `error` is NOT excluded. -/
def sbmPred (meetingId : String) (p : String × Session) : Bool :=
  p.2.meetingId = meetingId && !(p.2.status = Status.completed : Bool)

/-- The `GET /status-by-meeting/:meetingId` handler (index.js:143-150):
first matching session id with its status, else a 404 (`none`). -/
def statusByMeeting (reg : Registry) (meetingId : String) :
    Option (String × Status) :=
  (reg.find? (sbmPred meetingId)).map (fun p => (p.1, p.2.status))

/-- Number of non-terminal sessions in a given meeting — the quantity the
at-most-one-active-session-per-meeting invariant bounds. -/
def activeCount (meetingId : String) (reg : Registry) : Nat :=
  (reg.filter (attachPred meetingId)).length

/-- Dedup invariant: at most one non-terminal session per meeting id. -/
def dedupInv (reg : Registry) : Prop :=
  ∀ m : String, activeCount m reg ≤ 1

/-- Webhook events posted through `notifyMainApp` (fire-and-forget; delivery
failures are swallowed there, so only the emission is modelled). -/
inductive Event where
  | joined (meetingId : String)
  | recordingStarted
  | speakerChange (name : String)
  | transcriptReady (meetingId : String) (mode : String)
  | error (msg : String)
deriving DecidableEq, Repr

/-- Observable outcome of the awaited browser join automation inside `runBot`
(launch, navigation, selector waits): success, or a thrown error message. -/
abbrev JoinOutcome := Except String Unit

/-- The `runBot` task (index.js:184-240).  On success the session stores the
browser handle, becomes `joined` (webhook `joined`), the speaker log is
initialised, and — when `recordAudio` — `startRecording` sets the status to
`recording` (webhook `recording_started`) and arms the rotation timer when
the audio stream opened (`streamOk`; a stream failure is only logged).  On a
throw, the catch block (index.js:234-239) posts a webhook `error`, closes the
browser, and DELETES the session from the registry. -/
def runBot (outcome : JoinOutcome) (streamOk : Bool) (reg : Registry)
    (sid : String) : Registry × List Event :=
  match Registry.get? reg sid with
  | none => (reg, [])
  | some sess =>
    match outcome with
    | Except.error msg => (Registry.erase reg sid, [Event.error msg])
    | Except.ok _ =>
      let sess1 := { sess with
        browserOpen := true
        status := Status.joined
        speakerLog := [] }
      if sess1.recordAudio then
        (Registry.set reg sid
           { sess1 with
              status := Status.recording
              hasInterval := streamOk },
         [Event.joined sess.meetingId, Event.recordingStarted])
      else
        (Registry.set reg sid sess1, [Event.joined sess.meetingId])

/-- Observable result of the STT collaborator (`processAudioThroughSTT`). -/
structure SttResult where
  transcript : List TranscriptEntry
  duration : Nat
deriving DecidableEq, Repr

instance exceptDecEq {ε α : Type} [DecidableEq ε] [DecidableEq α] :
    DecidableEq (Except ε α) := fun x y =>
  match x, y with
  | Except.ok a, Except.ok b =>
    if h : a = b then isTrue (by rw [h])
    else isFalse (by intro hc; cases hc; exact h rfl)
  | Except.error a, Except.error b =>
    if h : a = b then isTrue (by rw [h])
    else isFalse (by intro hc; cases hc; exact h rfl)
  | Except.ok _, Except.error _ => isFalse (by intro hc; cases hc)
  | Except.error _, Except.ok _ => isFalse (by intro hc; cases hc)

/-- External observations of index.js `handleMeetingEnd`: whether `sample.wav`
exists next to the service, and the STT outcome when invoked (a throw is
`Except.error`). -/
structure IdxEnv where
  sampleExists : Bool
  stt : Except Unit SttResult
deriving DecidableEq, Repr

/-- Simulated transcript of index.js:372-377: the first logged speaker name
(or the fallback name), then two fixed entries. -/
def simulatedTranscript (speakerLog : List (String × Nat)) :
    List TranscriptEntry :=
  let realName := match speakerLog with
    | [] => "Pranav Patil"
    | (n, _) :: _ => n
  [ { start_time := 0, end_time := 5, speaker_id := realName,
      text := "Welcome to the engineering sync." },
    { start_time := 5, end_time := 10, speaker_id := "System",
      text := "Recording is active and following exact names." } ]

/-- Result of one call of index.js `handleMeetingEnd`: the registry
afterwards, the webhook events emitted, whether the processing block ran
(the status was `recording` on entry), which audio artifact was handed to
STT, and whether the temp chunk directory was removed. -/
structure IdxEndResult where
  reg : Registry
  events : List Event
  pipelineRan : Bool
  audioUsed : Option String
  cleanedTemp : Bool
deriving DecidableEq, Repr

/-- `handleMeetingEnd` of index.js:354-400.  The processing block runs only
when the session status is `recording`; it hands `sample.wav` to STT when
that file exists — the recorded chunk files are never read — or falls back to
the simulated transcript; an STT throw is caught and reported as a webhook
`error` (`STT_FAILED`) without setting a transcript.  In every case the
function then closes the browser and sets the status to `completed`
(index.js:398-399), even when it was already `processing` or `completed`. -/
def handleMeetingEndIdx (env : IdxEnv) (reg : Registry) (sid : String) :
    IdxEndResult :=
  match Registry.get? reg sid with
  | none =>
    { reg := reg, events := [], pipelineRan := false, audioUsed := none,
      cleanedTemp := false }
  | some sess =>
    if sess.status = Status.recording then
      let sess1 := { sess with status := Status.processing }
      if env.sampleExists then
        match env.stt with
        | Except.ok r =>
          { reg := Registry.set reg sid
              { sess1 with
                  transcript := some r.transcript
                  duration := some r.duration
                  browserOpen := false
                  status := Status.completed }
            events := [Event.transcriptReady sess.meetingId sess.mode]
            pipelineRan := true
            audioUsed := some "sample.wav"
            cleanedTemp := true }
        | Except.error _ =>
          { reg := Registry.set reg sid
              { sess1 with
                  browserOpen := false
                  status := Status.completed }
            events := [Event.error "STT_FAILED"]
            pipelineRan := true
            audioUsed := some "sample.wav"
            cleanedTemp := false }
      else
        { reg := Registry.set reg sid
            { sess1 with
                transcript := some (simulatedTranscript sess.speakerLog)
                browserOpen := false
                status := Status.completed }
          events := [Event.transcriptReady sess.meetingId sess.mode]
          pipelineRan := true
          audioUsed := none
          cleanedTemp := true }
    else
      { reg := Registry.set reg sid
          { sess with
              browserOpen := false
              status := Status.completed }
        events := []
        pipelineRan := false
        audioUsed := none
        cleanedTemp := false }

/-- Concrete request used to exercise the handler on small inputs. -/
def demoReq : JoinRequest :=
  { sessionId := "s2", joinUrl := "u", meetingId := "m1", mode := "bot",
    recordAudio := true }

/-- Concrete non-terminal session in meeting m1. -/
def demoActive : Session :=
  { status := Status.recording, meetingId := "m1", mode := "bot",
    joinUrl := "u", recordAudio := true }

/-- Registry holding one active session for meeting m1. -/
def demoReg : Registry := [("s1", demoActive)]

/-- Concrete session for meeting m1 that ended in the `error` status. -/
def errSess : Session :=
  { status := Status.error, meetingId := "m1", mode := "bot",
    joinUrl := "u", recordAudio := true }

/-- Registry whose only session for meeting m1 is in the `error` status. -/
def errReg : Registry := [("s1", errSess)]

/-- Directory of a session's recorded chunks
(`path.join(__dirname, 'temp', sessionId)`), relative to the service
directory. -/
def meetingDir (sid : String) : String := "temp/" ++ sid

/-- External observations of the ffmpeg-variant `handleMeetingEnd`
(index_puppeteer_backup.js:808-899): whether the temp directory exists and
its listing, the ffmpeg merge outcome, whether `sample.wav` exists, and the
STT outcome. -/
structure MergeEnv where
  dirExists : Bool
  listing : List String
  mergeResult : Except Unit Unit
  sampleExists : Bool
  stt : Except Unit SttResult
deriving DecidableEq, Repr

/-- Suffix test on character sequences — the `f.endsWith('.wav')` filter of
backup:822. -/
def endsWithWav (f : String) : Bool :=
  let pat := ".wav".data
  let s := f.data
  if s.length < pat.length then false
  else s.drop (s.length - pat.length) == pat

/-- Lexicographic comparison of the character sequences of two strings — the
default JS `Array.sort()` string order used at backup:824. -/
def fileLe (a b : String) : Prop := a.data ≤ b.data

instance : IsTotal String fileLe := ⟨fun a b => le_total a.data b.data⟩

instance : IsTrans String fileLe := ⟨fun _ _ _ hab hbc => le_trans hab hbc⟩

instance : DecidableRel fileLe := fun a b =>
  inferInstanceAs (Decidable (a.data ≤ b.data))

/-- Chunk files the backup pipeline works with (backup:821-824): the listing
filtered to `.wav`, mapped to full paths, then sorted — chronological order,
since chunk names carry a zero-padded counter. -/
def mergeFiles (env : MergeEnv) (sid : String) : List String :=
  List.insertionSort fileLe
    (((if env.dirExists then env.listing else []).filter endsWithWav).map
      (fun f => meetingDir sid ++ "/" ++ f))

/-- Simulated transcript of the backup pipeline (backup:872-876): the first
logged speaker name or the fallback, then two fixed entries. -/
def backupPlaceholder (speakerLog : List (String × Nat)) :
    List TranscriptEntry :=
  let realName := match speakerLog with
    | [] => "Unknown Speaker"
    | (n, _) :: _ => n
  [ { start_time := 0, end_time := 5, speaker_id := realName,
      text := "Welcome." },
    { start_time := 5, end_time := 10, speaker_id := "System",
      text := "No audio was recorded for this session." } ]

/-- Result of one call of the backup `handleMeetingEnd` on the record under
`sid`: the final session record, emitted webhook events, the audio artifact
handed to STT (`none` when the transcript was simulated), the file list
handed to ffmpeg when a merge was attempted, whether the temp directory was
removed, and whether the processing block ran.  (The `audioPath` the STT
service reports back on success is not tracked.) -/
structure BackupEndResult where
  session : Session
  events : List Event
  audioUsed : Option String
  mergeInputs : List String
  cleanedTemp : Bool
  pipelineRan : Bool
deriving DecidableEq, Repr

/-- `handleMeetingEnd` of index_puppeteer_backup.js:808-899.  When the status
is `recording`: move to `processing`, clear the rotation timer, list and sort
the chunk files; more than one chunk → ffmpeg merge (a throw is caught at
backup:890: webhook `error`, no cleanup); exactly one → that chunk; zero →
`sample.wav` when present, else a simulated two-entry transcript.  The chosen
artifact goes to STT (a throw is caught the same way).  On success the
transcript and duration are stored, `transcript_ready` is posted and the temp
directory removed.  In every case the browser is closed and the status set to
`completed` (backup:896-898) — also after a caught merge or STT failure. -/
def handleMeetingEndBackup (env : MergeEnv) (sid : String) (sess : Session) :
    BackupEndResult :=
  if sess.status = Status.recording then
    let sess1 : Session := { sess with
      status := Status.processing
      hasInterval := false }
    let files := mergeFiles env sid
    let minputs := if 1 < files.length then files else []
    let selected : Except Unit (Option String) :=
      if 1 < files.length then
        match env.mergeResult with
        | Except.ok _ => Except.ok (some (meetingDir sid ++ "/merged.wav"))
        | Except.error e => Except.error e
      else
        Except.ok files.head?
    match selected with
    | Except.error _ =>
      { session := { sess1 with
          browserOpen := false
          status := Status.completed }
        events := [Event.error "PROCESSING_FAILED"]
        audioUsed := none
        mergeInputs := minputs
        cleanedTemp := false
        pipelineRan := true }
    | Except.ok sel =>
      let audio := match sel with
        | some a => some a
        | none => if env.sampleExists then some "sample.wav" else none
      match audio with
      | some a =>
        match env.stt with
        | Except.ok r =>
          { session := { sess1 with
              transcript := some r.transcript
              duration := some r.duration
              browserOpen := false
              status := Status.completed }
            events := [Event.transcriptReady sess.meetingId sess.mode]
            audioUsed := some a
            mergeInputs := minputs
            cleanedTemp := env.dirExists
            pipelineRan := true }
        | Except.error _ =>
          { session := { sess1 with
              browserOpen := false
              status := Status.completed }
            events := [Event.error "PROCESSING_FAILED"]
            audioUsed := some a
            mergeInputs := minputs
            cleanedTemp := false
            pipelineRan := true }
      | none =>
        { session := { sess1 with
            transcript := some (backupPlaceholder sess.speakerLog)
            browserOpen := false
            status := Status.completed }
          events := [Event.transcriptReady sess.meetingId sess.mode]
          audioUsed := none
          mergeInputs := minputs
          cleanedTemp := env.dirExists
          pipelineRan := true }
  else
    { session := { sess with
        browserOpen := false
        status := Status.completed }
      events := []
      audioUsed := none
      mergeInputs := []
      cleanedTemp := false
      pipelineRan := false }

/-- Zero-padding of the chunk counter (`String(chunkIndex).padStart(3, '0')`). -/
def pad3 (n : Nat) : String :=
  let s := toString n
  if s.length < 3 then String.mk (List.replicate (3 - s.length) '0') ++ s
  else s

/-- Chunk file name for a counter value (index.js:325). -/
def chunkName (i : Nat) : String := "chunk_" ++ pad3 i ++ ".wav"

/-- Recording-time state of one session as seen by `startRecording`
(index.js:300-352): the session status, the local `chunkIndex` counter,
whether the rotation timer is armed (`chunkInterval`), and the chunk files
created so far in creation order. -/
structure RecState where
  status : Status
  chunkIndex : Nat
  timerActive : Bool
  chunks : List String
deriving DecidableEq, Repr

/-- `startNewChunk` (index.js:321-333): close the current file, increment
`chunkIndex`, open `chunk_<padded>.wav`. -/
def startNewChunk (st : RecState) : RecState :=
  { st with
      chunkIndex := st.chunkIndex + 1
      chunks := st.chunks ++ [chunkName (st.chunkIndex + 1)] }

/-- The rotation-timer callback (index.js:338-344): when the session is no
longer `recording` the interval clears itself and no chunk is opened;
otherwise the next chunk is started. -/
def chunkTick (st : RecState) : RecState :=
  if st.timerActive = false then st
  else if st.status = Status.recording then startNewChunk st
  else { st with timerActive := false }

/-- State right after `startRecording` armed the recorder: status `recording`
(index.js:305), first chunk opened by the initial `startNewChunk` call,
timer armed. -/
def recStart : RecState :=
  startNewChunk
    { status := Status.recording, chunkIndex := 0, timerActive := true,
      chunks := [] }

/-- External occurrences during the recording period: a rotation-timer tick,
or the end signal (`handleMeetingEnd`, which moves the session out of
`recording`; it does not clear the interval itself — the next tick does). -/
inductive RecEvent where
  | tick
  | endSignal
deriving DecidableEq, Repr

/-- One step of the recording period. -/
def recStep (st : RecState) : RecEvent → RecState
  | RecEvent.tick => chunkTick st
  | RecEvent.endSignal => { st with status := Status.completed }

/-- Concrete session still in `processing` (a first end signal mid-flight). -/
def procSess : Session :=
  { status := Status.processing, meetingId := "m1", mode := "bot",
    joinUrl := "u", recordAudio := true }

/-- Registry holding the `processing` session. -/
def procReg : Registry := [("s1", procSess)]

/-- Concrete session still in `joining` (its join automation not settled). -/
def joinSess : Session :=
  { status := Status.joining, meetingId := "m1", mode := "bot",
    joinUrl := "u", recordAudio := true }

/-- Registry holding the `joining` session. -/
def joinReg : Registry := [("s1", joinSess)]

/-- Environment where `sample.wav` is absent (STT is then never called). -/
def envNoSample : IdxEnv := { sampleExists := false, stt := Except.error () }

/-- Environment where `sample.wav` exists and STT succeeds with an empty
transcript. -/
def envSample : IdxEnv :=
  { sampleExists := true, stt := Except.ok { transcript := [], duration := 0 } }

/-- Temp directory with two recorded chunks; the ffmpeg merge throws. -/
def envMergeFail : MergeEnv :=
  { dirExists := true
    listing := ["chunk_001.wav", "chunk_002.wav"]
    mergeResult := Except.error ()
    sampleExists := false
    stt := Except.ok { transcript := [], duration := 0 } }

/-- Temp directory with two recorded chunks; merge and STT succeed. -/
def envTwoChunks : MergeEnv :=
  { dirExists := true
    listing := ["chunk_002.wav", "chunk_001.wav"]
    mergeResult := Except.ok ()
    sampleExists := false
    stt := Except.ok { transcript := [], duration := 0 } }

/-- Temp directory with exactly one recorded chunk. -/
def envOneChunk : MergeEnv :=
  { dirExists := true
    listing := ["chunk_001.wav"]
    mergeResult := Except.ok ()
    sampleExists := false
    stt := Except.ok { transcript := [], duration := 0 } }

/-- No recorded chunks and no `sample.wav`. -/
def envNoChunksNoSample : MergeEnv :=
  { dirExists := false
    listing := []
    mergeResult := Except.ok ()
    sampleExists := false
    stt := Except.error () }

-- Sanity checks on small inputs.
example :
    joinHandler 5
      { sessionId := "s2", joinUrl := "u", meetingId := "m1", mode := "b",
        recordAudio := true }
      [("s1", { status := Status.recording, meetingId := "m1", mode := "b",
                joinUrl := "u", recordAudio := true })]
    = (JoinResponse.attached "s1",
       [("s1", { status := Status.recording, meetingId := "m1", mode := "b",
                 joinUrl := "u", recordAudio := true })]) := by decide

example :
    joinHandler 0
      { sessionId := "s1", joinUrl := "u", meetingId := "m1", mode := "b",
        recordAudio := true } []
    = (JoinResponse.busy, []) := by decide

example :
    joinHandler 1
      { sessionId := "s1", joinUrl := "u", meetingId := "m1", mode := "b",
        recordAudio := true } []
    = (JoinResponse.initiated "s1",
       [("s1", { status := Status.joining, meetingId := "m1", mode := "b",
                 joinUrl := "u", recordAudio := true })]) := by decide

-- Helper lemmas about the registry and the admission scans.

theorem eq_of_mem_of_length_le_one {α : Type} {l : List α} (h : l.length ≤ 1)
    {a b : α} (ha : a ∈ l) (hb : b ∈ l) : a = b := by
  match l with
  | [] => cases ha
  | [x] =>
    rw [List.mem_singleton] at ha hb
    rw [ha, hb]
  | x :: y :: t => simp at h

theorem find?_attach_of_none {reg : Registry} {m : String}
    (h : findActiveByMeeting reg m = none) :
    ∀ p ∈ reg, attachPred m p = false := by
  intro p hp
  unfold findActiveByMeeting at h
  cases hf : reg.find? (attachPred m) with
  | none =>
    rw [List.find?_eq_none] at hf
    simpa using hf p hp
  | some q => rw [hf] at h; simp at h

theorem set_eq_append_of_not_hasId (reg : Registry) (sid : String)
    (h : Registry.hasId reg sid = false) (v : Session) :
    Registry.set reg sid v = reg ++ [(sid, v)] := by
  induction reg with
  | nil => rfl
  | cons p ps ih =>
    unfold Registry.hasId Registry.get? at h
    by_cases hk : p.1 = sid
    · rw [if_pos hk] at h
      simp at h
    · rw [if_neg hk] at h
      unfold Registry.set
      rw [if_neg hk]
      rw [ih h]
      simp

theorem activeCount_append (m : String) (reg : Registry) (x : String × Session) :
    activeCount m (reg ++ [x])
      = activeCount m reg + (if attachPred m x then 1 else 0) := by
  unfold activeCount
  rw [List.filter_append, List.length_append]
  by_cases h : attachPred m x
  · simp [h]
  · simp [h]

theorem get?_set_self (reg : Registry) (sid : String) (v : Session) :
    Registry.get? (Registry.set reg sid v) sid = some v := by
  induction reg with
  | nil => simp [Registry.set, Registry.get?]
  | cons p ps ih =>
    unfold Registry.set
    by_cases hk : p.1 = sid
    · rw [if_pos hk]
      simp [Registry.get?]
    · rw [if_neg hk]
      unfold Registry.get?
      rw [if_neg hk]
      exact ih

theorem get?_erase_self (reg : Registry) (sid : String) :
    Registry.get? (Registry.erase reg sid) sid = none := by
  induction reg with
  | nil => rfl
  | cons p ps ih =>
    unfold Registry.erase at ih ⊢
    rw [List.filter_cons]
    by_cases hk : p.1 = sid
    · simpa [hk] using ih
    · simpa [Registry.get?, hk] using ih

/-- Status of the session after index.js handleMeetingEnd: whenever the
session id was present, it reads back `completed`. -/
theorem endIdx_get_status (env : IdxEnv) (reg : Registry) (sid : String) :
    (Registry.get? (handleMeetingEndIdx env reg sid).reg sid).map Session.status
      = (Registry.get? reg sid).map (fun _ => Status.completed) := by
  unfold handleMeetingEndIdx
  cases hg : Registry.get? reg sid with
  | none => simp [hg]
  | some sess =>
    by_cases hrec : sess.status = Status.recording
    · by_cases hs : env.sampleExists = true
      · cases hstt : env.stt with
        | ok r => simp [hrec, hs, hstt, hg, get?_set_self]
        | error e => simp [hrec, hs, hstt, hg, get?_set_self]
      · simp [hrec, hs, hg, get?_set_self]
    · simp [hrec, hg, get?_set_self]

/-- Any record readable under the ended session id after handleMeetingEnd is
`completed`. -/
theorem endIdx_get_completed (env : IdxEnv) (reg : Registry) (sid : String)
    (v : Session)
    (hv : Registry.get? (handleMeetingEndIdx env reg sid).reg sid = some v) :
    v.status = Status.completed := by
  have h := endIdx_get_status env reg sid
  rw [hv] at h
  cases hg : Registry.get? reg sid with
  | none => rw [hg] at h; cases h
  | some s => rw [hg] at h; simpa using h

/-- The processing block of handleMeetingEnd runs exactly when the session is
found and its status is `recording`. -/
theorem endIdx_pipelineRan (env : IdxEnv) (reg : Registry) (sid : String) :
    (handleMeetingEndIdx env reg sid).pipelineRan
      = match Registry.get? reg sid with
        | none => false
        | some sess => decide (sess.status = Status.recording) := by
  unfold handleMeetingEndIdx
  cases hg : Registry.get? reg sid with
  | none => rfl
  | some sess =>
    by_cases hrec : sess.status = Status.recording
    · by_cases hs : env.sampleExists = true
      · cases hstt : env.stt <;> simp [hrec, hs, hstt]
      · simp [hrec, hs]
    · simp [hrec]

theorem joinHandler_attached {maxBots : Nat} {req : JoinRequest} {reg : Registry}
    {sid : String} {sess : Session}
    (hv : validRequest req = true)
    (hinv : dedupInv reg)
    (hmem : (sid, sess) ∈ reg)
    (hpred : attachPred req.meetingId (sid, sess) = true) :
    joinHandler maxBots req reg = (JoinResponse.attached sid, reg) := by
  have hfind : findActiveByMeeting reg req.meetingId = some sid := by
    cases hf : reg.find? (attachPred req.meetingId) with
    | none =>
      rw [List.find?_eq_none] at hf
      exact absurd hpred (by simpa using hf _ hmem)
    | some q =>
      have hqmem := List.mem_of_find?_eq_some hf
      have hqpred := List.find?_some hf
      have hq1 : q ∈ reg.filter (attachPred req.meetingId) :=
        List.mem_filter.mpr ⟨hqmem, hqpred⟩
      have hq2 : (sid, sess) ∈ reg.filter (attachPred req.meetingId) :=
        List.mem_filter.mpr ⟨hmem, hpred⟩
      have hqe : q = (sid, sess) :=
        eq_of_mem_of_length_le_one (hinv req.meetingId) hq1 hq2
      unfold findActiveByMeeting
      rw [hf, hqe]
      rfl
  unfold joinHandler
  rw [hv, hfind]
  rfl

theorem joinHandler_preserves_dedupInv (maxBots : Nat) (req : JoinRequest)
    (reg : Registry) (hinv : dedupInv reg) :
    dedupInv (joinHandler maxBots req reg).2 := by
  unfold joinHandler
  by_cases hv : validRequest req
  case neg => simpa [hv] using hinv
  rw [hv]
  cases hf : findActiveByMeeting reg req.meetingId with
  | some sid => simpa using hinv
  | none =>
    by_cases hh : Registry.hasId reg req.sessionId
    · simpa [hh] using hinv
    · simp only [hh, Bool.false_eq_true, if_false, if_neg]
      by_cases hcap : maxBots ≤ activeBots reg
      · simpa [hcap] using hinv
      · have hset := set_eq_append_of_not_hasId reg
          req.sessionId (by simpa using hh) (newSession req)
        simp only [hcap, if_false, if_neg]
        intro m
        show activeCount m (Registry.set reg req.sessionId (newSession req)) ≤ 1
        rw [hset, activeCount_append]
        by_cases hm : m = req.meetingId
        · have hzero : activeCount req.meetingId reg = 0 := by
            unfold activeCount
            rw [List.length_eq_zero, List.filter_eq_nil_iff]
            intro p hp
            simp [find?_attach_of_none hf p hp]
          rw [hm, hzero]
          split <;> simp
        · have hpx : attachPred m (req.sessionId, newSession req) = false := by
            unfold attachPred newSession
            simp
            intro hcontra
            exact absurd hcontra.symm hm
          rw [hpx]
          simpa using hinv m

theorem applyJoins_dedupInv (maxBots : Nat) (reqs : List JoinRequest)
    (reg : Registry) (hinv : dedupInv reg) :
    dedupInv (applyJoins maxBots reqs reg) := by
  induction reqs generalizing reg with
  | nil => simpa [applyJoins] using hinv
  | cons q qs ih =>
    unfold applyJoins
    rw [List.foldl_cons]
    exact ih _ (joinHandler_preserves_dedupInv maxBots q reg hinv)

theorem joinHandler_busy {maxBots : Nat} {req : JoinRequest} {reg : Registry}
    (hv : validRequest req = true)
    (hf : findActiveByMeeting reg req.meetingId = none)
    (hh : Registry.hasId reg req.sessionId = false)
    (hcap : maxBots ≤ activeBots reg) :
    joinHandler maxBots req reg = (JoinResponse.busy, reg) := by
  unfold joinHandler
  rw [hv, hf]
  simp [hh, hcap]

theorem activeBots_append (reg : Registry) (x : String × Session) :
    activeBots (reg ++ [x])
      = activeBots reg
        + (if !(x.2.status = Status.completed : Bool)
              && !(x.2.status = Status.error : Bool) then 1 else 0) := by
  unfold activeBots
  rw [List.filter_append, List.length_append]
  split <;> rename_i h <;> simp [List.filter, h]

theorem joinHandler_activeBots_le (maxBots : Nat) (req : JoinRequest)
    (reg : Registry) (hle : activeBots reg ≤ maxBots) :
    activeBots (joinHandler maxBots req reg).2 ≤ maxBots := by
  unfold joinHandler
  by_cases hv : validRequest req
  case neg => simpa [hv] using hle
  rw [hv]
  cases hf : findActiveByMeeting reg req.meetingId with
  | some sid => simpa using hle
  | none =>
    by_cases hh : Registry.hasId reg req.sessionId
    · simpa [hh] using hle
    · simp only [hh, Bool.false_eq_true, if_false, if_neg]
      by_cases hcap : maxBots ≤ activeBots reg
      · simpa [hcap] using hle
      · have hset := set_eq_append_of_not_hasId reg
          req.sessionId (by simpa using hh) (newSession req)
        simp only [hcap, if_false, if_neg]
        show activeBots (Registry.set reg req.sessionId (newSession req)) ≤ maxBots
        rw [hset, activeBots_append]
        have hnew : (if !((newSession req).status = Status.completed : Bool)
            && !((newSession req).status = Status.error : Bool) then 1 else 0) = 1 := by
          simp [newSession]
        rw [hnew]
        omega

theorem applyJoins_activeBots_le (maxBots : Nat) (reqs : List JoinRequest)
    (reg : Registry) (hle : activeBots reg ≤ maxBots) :
    activeBots (applyJoins maxBots reqs reg) ≤ maxBots := by
  induction reqs generalizing reg with
  | nil => simpa [applyJoins] using hle
  | cons q qs ih =>
    unfold applyJoins
    rw [List.foldl_cons]
    exact ih _ (joinHandler_activeBots_le maxBots q reg hle)

/-- C1: a join request arriving while a non-terminal session for the same
meeting exists is answered `attached` with that session id and the registry
is unchanged; the handler preserves the at-most-one-active-session-per-meeting
invariant, and any sequence of admission requests starting from the empty
registry keeps it. -/
theorem C1_join_dedup_at_most_one_active :
    (∀ (maxBots : Nat) (req : JoinRequest) (reg : Registry) (sid : String)
        (sess : Session),
      validRequest req = true → dedupInv reg → (sid, sess) ∈ reg →
      attachPred req.meetingId (sid, sess) = true →
      joinHandler maxBots req reg = (JoinResponse.attached sid, reg))
    ∧ (∀ (maxBots : Nat) (req : JoinRequest) (reg : Registry),
        dedupInv reg → dedupInv (joinHandler maxBots req reg).2)
    ∧ (∀ (maxBots : Nat) (reqs : List JoinRequest),
        dedupInv (applyJoins maxBots reqs [])) :=
  ⟨fun _ _ _ _ _ hv hinv hmem hpred => joinHandler_attached hv hinv hmem hpred,
   fun maxBots req reg hinv => joinHandler_preserves_dedupInv maxBots req reg hinv,
   fun maxBots reqs =>
     applyJoins_dedupInv maxBots reqs [] (fun _ => by simp [activeCount])⟩

/-- Witness for C1: with one recording session for m1 in the registry, a
second join request for m1 is answered `attached "s1"` and nothing is
inserted. -/
theorem C1_join_dedup_at_most_one_active_witness :
    joinHandler 5 demoReq demoReg = (JoinResponse.attached "s1", demoReg) :=
  C1_join_dedup_at_most_one_active.1 5 demoReq demoReg "s1" demoActive
    (by decide)
    (fun _ => le_trans (List.length_filter_le _ _) (by decide))
    (by decide) (by decide)

/-- C2: a join request for a new meeting is rejected `busy` when the
non-terminal session count has reached `MAX_BOTS` and the registry is
unchanged; one handler step never pushes the non-terminal count above
`MAX_BOTS`, and after any sequence of admission requests from the empty
registry the count is at most `MAX_BOTS`. -/
theorem C2_capacity_never_exceeded :
    (∀ (maxBots : Nat) (req : JoinRequest) (reg : Registry),
      validRequest req = true →
      findActiveByMeeting reg req.meetingId = none →
      Registry.hasId reg req.sessionId = false →
      maxBots ≤ activeBots reg →
      joinHandler maxBots req reg = (JoinResponse.busy, reg))
    ∧ (∀ (maxBots : Nat) (req : JoinRequest) (reg : Registry),
        activeBots reg ≤ maxBots →
        activeBots (joinHandler maxBots req reg).2 ≤ maxBots)
    ∧ (∀ (maxBots : Nat) (reqs : List JoinRequest),
        activeBots (applyJoins maxBots reqs []) ≤ maxBots) :=
  ⟨fun _ _ _ hv hf hh hcap => joinHandler_busy hv hf hh hcap,
   fun maxBots req reg hle => joinHandler_activeBots_le maxBots req reg hle,
   fun maxBots reqs =>
     applyJoins_activeBots_le maxBots reqs [] (by simp [activeBots])⟩

/-- Witness for C2: with `MAX_BOTS = 1` and one recording session in the
registry, a join request for a fresh meeting m2 is rejected `busy` and
nothing is inserted. -/
theorem C2_capacity_never_exceeded_witness :
    joinHandler 1
      { sessionId := "s3", joinUrl := "u", meetingId := "m2", mode := "bot",
        recordAudio := true } demoReg
    = (JoinResponse.busy, demoReg) :=
  C2_capacity_never_exceeded.1 1
    { sessionId := "s3", joinUrl := "u", meetingId := "m2", mode := "bot",
      recordAudio := true } demoReg
    (by decide) (by decide) (by decide) (by decide)

/-- C9: a join request whose session id is already a registry key, and whose
meeting has no non-terminal session, is answered `already_active` with that
session id; the registry is unchanged (no insertion, no mutation) and the
response does not depend on `MAX_BOTS`, so the capacity check never applies
to it. -/
theorem C9_already_active_short_circuit :
    ∀ (maxBots : Nat) (req : JoinRequest) (reg : Registry),
      validRequest req = true →
      findActiveByMeeting reg req.meetingId = none →
      Registry.hasId reg req.sessionId = true →
      joinHandler maxBots req reg
        = (JoinResponse.alreadyActive req.sessionId, reg) := by
  intro maxBots req reg hv hf hh
  unfold joinHandler
  rw [hv, hf]
  simp [hh]

/-- Witness for C9: the session id s1 is already registered (its session
errored), the meeting has no non-terminal session, and even with
`MAX_BOTS = 0` — under which any admission would be rejected busy — the
handler answers `already_active`. -/
theorem C9_already_active_short_circuit_witness :
    joinHandler 0
      { sessionId := "s1", joinUrl := "u", meetingId := "m1", mode := "bot",
        recordAudio := true } errReg
    = (JoinResponse.alreadyActive "s1", errReg) :=
  C9_already_active_short_circuit 0
    { sessionId := "s1", joinUrl := "u", meetingId := "m1", mode := "bot",
      recordAudio := true } errReg
    (by decide) (by decide) (by decide)

/-- C10: the status-by-meeting scan excludes only `completed` sessions, so for
a session in the `error` status its scan predicate reduces to the meeting-id
test while the admission dedup predicate is false; consequently whenever the
lookup finds a session that the dedup scan skips, that session is in the
`error` status. -/
theorem C10_status_by_meeting_includes_error :
    (∀ (m : String) (p : String × Session), p.2.status = Status.error →
      sbmPred m p = decide (p.2.meetingId = m) ∧ attachPred m p = false)
    ∧ (∀ (reg : Registry) (m sid : String) (st : Status),
        statusByMeeting reg m = some (sid, st) →
        findActiveByMeeting reg m = none → st = Status.error) := by
  constructor
  · intro m p hp
    constructor
    · simp [sbmPred, hp]
    · simp [attachPred, hp]
  · intro reg m sid st hsbm hatt
    unfold statusByMeeting at hsbm
    rw [Option.map_eq_some'] at hsbm
    obtain ⟨p, hfind, heq⟩ := hsbm
    have hmem := List.mem_of_find?_eq_some hfind
    have hpred := List.find?_some hfind
    have hfalse := find?_attach_of_none hatt p hmem
    have hst : p.2.status = st := by
      have h2 := congrArg Prod.snd heq
      simpa using h2
    simp [sbmPred] at hpred
    simp [attachPred, hpred.1, hpred.2] at hfalse
    rw [← hst]
    exact hfalse

/-- Witness for C10: the registry whose only m1 session errored — the lookup
returns it while the dedup scan reports no active session. -/
theorem C10_status_by_meeting_includes_error_witness :
    statusByMeeting errReg "m1" = some ("s1", Status.error)
    ∧ findActiveByMeeting errReg "m1" = none
    ∧ Status.error = Status.error :=
  ⟨by decide, by decide,
   C10_status_by_meeting_includes_error.2 errReg "m1" "s1" Status.error
     (by decide) (by decide)⟩

/-- C3 counterexample: with the session still in `processing` (a first end
signal mid-flight), a duplicate end signal is NOT a no-op on the session
state: index.js:399 forces the status to `completed`, changing the record. -/
theorem C3_counterexample :
    Registry.get? (handleMeetingEndIdx envNoSample procReg "s1").reg "s1"
      ≠ Registry.get? procReg "s1" := by decide

/-- C3 amended: delivering the end signal twice triggers the processing
pipeline at most once; a duplicate signal while the session is in
`processing` or `completed` re-runs nothing and emits no webhook event, but
it overwrites the status to `completed` (so it is a state change when the
session was still `processing`, and leaves transcript and artifacts
untouched). -/
theorem C3_end_signal_pipeline_at_most_once :
    (∀ (e1 e2 : IdxEnv) (reg : Registry) (sid : String),
      ¬((handleMeetingEndIdx e1 reg sid).pipelineRan = true
        ∧ (handleMeetingEndIdx e2 (handleMeetingEndIdx e1 reg sid).reg
            sid).pipelineRan = true))
    ∧ (∀ (e : IdxEnv) (reg : Registry) (sid : String) (sess : Session),
        Registry.get? reg sid = some sess →
        sess.status = Status.processing ∨ sess.status = Status.completed →
        (handleMeetingEndIdx e reg sid).pipelineRan = false
        ∧ (handleMeetingEndIdx e reg sid).events = []
        ∧ Registry.get? (handleMeetingEndIdx e reg sid).reg sid
            = some { sess with
                       browserOpen := false
                       status := Status.completed }) := by
  constructor
  · intro e1 e2 reg sid h
    obtain ⟨h1, h2⟩ := h
    rw [endIdx_pipelineRan] at h2
    cases hg : Registry.get? (handleMeetingEndIdx e1 reg sid).reg sid with
    | none => rw [hg] at h2; cases h2
    | some v =>
      rw [hg] at h2
      have hc := endIdx_get_completed e1 reg sid v hg
      simp at h2
      rw [hc] at h2
      cases h2
  · intro e reg sid sess hg hst
    have hrec : ¬sess.status = Status.recording := by
      rcases hst with h | h <;> rw [h] <;> decide
    refine ⟨?_, ?_, ?_⟩ <;> simp [handleMeetingEndIdx, hg, hrec, get?_set_self]

/-- Witness for the amended C3 at a concrete `processing` session. -/
theorem C3_end_signal_pipeline_at_most_once_witness :
    (handleMeetingEndIdx envSample procReg "s1").pipelineRan = false
    ∧ (handleMeetingEndIdx envSample procReg "s1").events = []
    ∧ Registry.get? (handleMeetingEndIdx envSample procReg "s1").reg "s1"
        = some { procSess with
                   browserOpen := false
                   status := Status.completed } :=
  C3_end_signal_pipeline_at_most_once.2 envSample procReg "s1" procSess
    (by decide) (Or.inl (by decide))

/-- C5 counterexample: session s1 is registered (status `joining`), its join
automation throws, and afterwards the session is gone from the registry — it
neither carries the `error` status nor remains queryable (index.js:238
deletes it). -/
theorem C5_counterexample :
    Registry.get? joinReg "s1" = some joinSess
    ∧ Registry.get? (runBot (Except.error "timeout") true joinReg "s1").1 "s1"
        = none := by decide

/-- C5 amended: a failed join posts the webhook `error` event with the thrown
message, and the session record is DELETED from the registry
(index.js:234-239) — it is not retained with an `error` status and is no
longer queryable afterwards. -/
theorem C5_join_failure_reports_and_deletes :
    ∀ (msg : String) (streamOk : Bool) (reg : Registry) (sid : String)
      (sess : Session),
      Registry.get? reg sid = some sess →
      runBot (Except.error msg) streamOk reg sid
        = (Registry.erase reg sid, [Event.error msg])
      ∧ Registry.get? (runBot (Except.error msg) streamOk reg sid).1 sid
          = none := by
  intro msg streamOk reg sid sess hg
  have h1 : runBot (Except.error msg) streamOk reg sid
      = (Registry.erase reg sid, [Event.error msg]) := by
    simp [runBot, hg]
  exact ⟨h1, by rw [h1]; exact get?_erase_self reg sid⟩

/-- Witness for the amended C5 at the concrete `joining` session. -/
theorem C5_join_failure_reports_and_deletes_witness :
    runBot (Except.error "timeout") true joinReg "s1"
      = (Registry.erase joinReg "s1", [Event.error "timeout"])
    ∧ Registry.get? (runBot (Except.error "timeout") true joinReg "s1").1 "s1"
        = none :=
  C5_join_failure_reports_and_deletes "timeout" true joinReg "s1" joinSess
    (by decide)

/-- C4 counterexample: a recording session with two chunks whose merge throws
ends with status `completed`, not `Error` — the catch at backup:890-893
swallows the failure and backup:898 still marks the session completed. -/
theorem C4_counterexample :
    (handleMeetingEndBackup envMergeFail "s1" demoActive).session.status
      = Status.completed
    ∧ ¬(handleMeetingEndBackup envMergeFail "s1" demoActive).session.status
        = Status.error := by decide

/-- C4 amended: when the chunk merge throws during completion, the failure is
caught: a webhook `error` (PROCESSING_FAILED) is emitted, no transcript is
stored, nothing goes to STT, the temp files are not cleaned, and the held
resources are released (rotation timer cleared, browser closed) — but the
session's terminal status becomes `completed`, not `Error`. -/
theorem C4_merge_failure_completes_not_error :
    ∀ (env : MergeEnv) (sid : String) (sess : Session),
      sess.status = Status.recording →
      1 < (mergeFiles env sid).length →
      env.mergeResult = Except.error () →
      (handleMeetingEndBackup env sid sess).session.status = Status.completed
      ∧ (handleMeetingEndBackup env sid sess).session.transcript
          = sess.transcript
      ∧ (handleMeetingEndBackup env sid sess).events
          = [Event.error "PROCESSING_FAILED"]
      ∧ (handleMeetingEndBackup env sid sess).audioUsed = none
      ∧ (handleMeetingEndBackup env sid sess).cleanedTemp = false
      ∧ (handleMeetingEndBackup env sid sess).session.hasInterval = false
      ∧ (handleMeetingEndBackup env sid sess).session.browserOpen = false := by
  intro env sid sess hrec hlen hm
  refine ⟨?_, ?_, ?_, ?_, ?_, ?_, ?_⟩ <;>
    simp [handleMeetingEndBackup, hrec, hlen, hm]

/-- Witness for the amended C4 at the concrete merge-failure environment. -/
theorem C4_merge_failure_completes_not_error_witness :
    (handleMeetingEndBackup envMergeFail "s1" demoActive).session.status
        = Status.completed
    ∧ (handleMeetingEndBackup envMergeFail "s1" demoActive).session.transcript
        = demoActive.transcript
    ∧ (handleMeetingEndBackup envMergeFail "s1" demoActive).events
        = [Event.error "PROCESSING_FAILED"]
    ∧ (handleMeetingEndBackup envMergeFail "s1" demoActive).audioUsed = none
    ∧ (handleMeetingEndBackup envMergeFail "s1" demoActive).cleanedTemp = false
    ∧ (handleMeetingEndBackup envMergeFail "s1"
        demoActive).session.hasInterval = false
    ∧ (handleMeetingEndBackup envMergeFail "s1"
        demoActive).session.browserOpen = false :=
  C4_merge_failure_completes_not_error envMergeFail "s1" demoActive
    (by decide) (by decide) (by decide)

/-- C6 counterexample: a recording session that ends with zero chunks (and no
sample fallback) gets a placeholder transcript with exactly TWO entries, not
one, and still completes. -/
theorem C6_counterexample :
    ((handleMeetingEndBackup envNoChunksNoSample "s1"
        demoActive).session.transcript.map List.length) = some 2
    ∧ ¬((handleMeetingEndBackup envNoChunksNoSample "s1"
        demoActive).session.transcript.map List.length) = some 1 := by decide

/-- C6 amended: a recording session ending with zero recorded chunks (and no
`sample.wav` fallback) receives the synthetic placeholder transcript, which
has exactly TWO entries — the second noting that no audio was recorded — and
the session still reaches `completed` rather than failing. -/
theorem C6_zero_chunks_placeholder_two_entries :
    ∀ (env : MergeEnv) (sid : String) (sess : Session),
      sess.status = Status.recording →
      mergeFiles env sid = [] →
      env.sampleExists = false →
      (handleMeetingEndBackup env sid sess).session.status = Status.completed
      ∧ (handleMeetingEndBackup env sid sess).session.transcript
          = some (backupPlaceholder sess.speakerLog)
      ∧ (backupPlaceholder sess.speakerLog).length = 2 := by
  intro env sid sess hrec hfiles hs
  refine ⟨?_, ?_, ?_⟩ <;>
    simp [handleMeetingEndBackup, backupPlaceholder, hrec, hfiles, hs]

/-- Witness for the amended C6 at the concrete zero-chunk environment. -/
theorem C6_zero_chunks_placeholder_two_entries_witness :
    (handleMeetingEndBackup envNoChunksNoSample "s1"
        demoActive).session.status = Status.completed
    ∧ (handleMeetingEndBackup envNoChunksNoSample "s1"
        demoActive).session.transcript
        = some (backupPlaceholder demoActive.speakerLog)
    ∧ (backupPlaceholder demoActive.speakerLog).length = 2 :=
  C6_zero_chunks_placeholder_two_entries envNoChunksNoSample "s1" demoActive
    (by decide) (by decide) (by decide)

/-- C7 counterexample: the primary pipeline (index.js handleMeetingEnd) never
reads the recorded chunk files: for a recording session whose temp directory
holds exactly the single chunk `temp/s1/chunk_001.wav`, the artifact handed
to STT is the fixed `sample.wav`, not that chunk. -/
theorem C7_counterexample :
    (handleMeetingEndIdx envSample demoReg "s1").audioUsed
        = some "sample.wav"
    ∧ ¬(handleMeetingEndIdx envSample demoReg "s1").audioUsed
        = some (meetingDir "s1" ++ "/" ++ chunkName 1) := by decide

/-- C7 amended: in the ffmpeg merge variant (index_puppeteer_backup.js) the
pipeline lists the chunk files sorted into creation order (a sorted
permutation of the `.wav` listing); with exactly one chunk that chunk itself
is the transcription input and no merge is attempted; with multiple chunks
and a successful merge the merged artifact `merged.wav` is the input, and
the merge receives exactly the sorted chunk list.  (The primary index.js
pipeline instead ignores recorded chunks — see the counterexample.) -/
theorem C7_backup_chunk_selection :
    (∀ (env : MergeEnv) (sid : String),
      List.Sorted fileLe (mergeFiles env sid)
      ∧ List.Perm (mergeFiles env sid)
          (((if env.dirExists then env.listing else []).filter
              endsWithWav).map
            (fun f => meetingDir sid ++ "/" ++ f)))
    ∧ (∀ (env : MergeEnv) (sid : String) (sess : Session) (f : String),
        sess.status = Status.recording →
        mergeFiles env sid = [f] →
        (handleMeetingEndBackup env sid sess).audioUsed = some f
        ∧ (handleMeetingEndBackup env sid sess).mergeInputs = [])
    ∧ (∀ (env : MergeEnv) (sid : String) (sess : Session),
        sess.status = Status.recording →
        1 < (mergeFiles env sid).length →
        env.mergeResult = Except.ok () →
        (handleMeetingEndBackup env sid sess).audioUsed
            = some (meetingDir sid ++ "/merged.wav")
        ∧ (handleMeetingEndBackup env sid sess).mergeInputs
            = mergeFiles env sid) := by
  refine ⟨?_, ?_, ?_⟩
  · intro env sid
    constructor
    · exact List.sorted_insertionSort _ _
    · exact List.perm_insertionSort _ _
  · intro env sid sess f hrec hfiles
    cases hstt : env.stt with
    | ok r =>
      refine ⟨?_, ?_⟩ <;>
        simp [handleMeetingEndBackup, hrec, hfiles, hstt]
    | error e =>
      refine ⟨?_, ?_⟩ <;>
        simp [handleMeetingEndBackup, hrec, hfiles, hstt]
  · intro env sid sess hrec hlen hm
    cases hstt : env.stt with
    | ok r =>
      refine ⟨?_, ?_⟩ <;>
        simp [handleMeetingEndBackup, hrec, hlen, hm, hstt]
    | error e =>
      refine ⟨?_, ?_⟩ <;>
        simp [handleMeetingEndBackup, hrec, hlen, hm, hstt]

/-- Witness for C7 at concrete one-chunk and two-chunk environments. -/
theorem C7_backup_chunk_selection_witness :
    ((handleMeetingEndBackup envOneChunk "s1" demoActive).audioUsed
        = some "temp/s1/chunk_001.wav"
      ∧ (handleMeetingEndBackup envOneChunk "s1" demoActive).mergeInputs = [])
    ∧ ((handleMeetingEndBackup envTwoChunks "s1" demoActive).audioUsed
        = some (meetingDir "s1" ++ "/merged.wav")
      ∧ (handleMeetingEndBackup envTwoChunks "s1" demoActive).mergeInputs
          = mergeFiles envTwoChunks "s1") :=
  ⟨C7_backup_chunk_selection.2.1 envOneChunk "s1" demoActive
      "temp/s1/chunk_001.wav" (by decide) (by decide),
   C7_backup_chunk_selection.2.2 envTwoChunks "s1" demoActive
      (by decide) (by decide) (by decide)⟩

-- Helper for C8: once the session has left `recording`, a step never adds a
-- chunk, never moves the counter, and never returns to `recording`.
theorem recStep_stopped (st : RecState) (e : RecEvent)
    (h : ¬st.status = Status.recording) :
    (recStep st e).chunks = st.chunks
    ∧ (recStep st e).chunkIndex = st.chunkIndex
    ∧ ¬(recStep st e).status = Status.recording := by
  cases e with
  | tick =>
    unfold recStep chunkTick
    by_cases h1 : st.timerActive = false
    · simp [h1, h]
    · simp [h1, h]
  | endSignal => simp [recStep]

/-- C8: the rotation tick opens chunk `chunkIndex + 1` exactly when the timer
is armed and the status is still `recording`; when the status has left
`recording` a tick clears the timer and creates nothing; `chunkIndex` is
monotone under every step; and from any state no longer `recording`, no
sequence of later steps ever creates a chunk. -/
theorem C8_rotation_only_while_recording :
    (∀ st : RecState, st.timerActive = true →
      st.status = Status.recording →
      (chunkTick st).chunkIndex = st.chunkIndex + 1
      ∧ (chunkTick st).chunks = st.chunks ++ [chunkName (st.chunkIndex + 1)])
    ∧ (∀ st : RecState, ¬st.status = Status.recording →
        (chunkTick st).chunks = st.chunks
        ∧ (chunkTick st).chunkIndex = st.chunkIndex
        ∧ (chunkTick st).timerActive = false)
    ∧ (∀ (st : RecState) (e : RecEvent),
        st.chunkIndex ≤ (recStep st e).chunkIndex)
    ∧ (∀ (st : RecState) (evs : List RecEvent),
        ¬st.status = Status.recording →
        (evs.foldl recStep st).chunks = st.chunks) := by
  refine ⟨?_, ?_, ?_, ?_⟩
  · intro st h1 h2
    constructor <;> simp [chunkTick, h1, h2, startNewChunk]
  · intro st h
    by_cases h1 : st.timerActive = false
    · refine ⟨?_, ?_, ?_⟩ <;> simp [chunkTick, h1]
    · refine ⟨?_, ?_, ?_⟩ <;> simp [chunkTick, h1, h]
  · intro st e
    cases e with
    | tick =>
      unfold recStep chunkTick
      by_cases h1 : st.timerActive = false
      · simp [h1]
      · have ht : st.timerActive = true := by
          revert h1; cases st.timerActive <;> simp
        by_cases h2 : st.status = Status.recording
        · simp [ht, h2, startNewChunk]
        · simp [ht, h2]
    | endSignal => simp [recStep]
  · intro st evs h
    induction evs generalizing st with
    | nil => rfl
    | cons e es ih =>
      rw [List.foldl_cons]
      have hs := recStep_stopped st e h
      rw [ih (recStep st e) hs.2.2, hs.1]

/-- Witness for C8: a tick on the just-armed recorder opens chunk 2; after the
end signal, two further ticks create nothing. -/
theorem C8_rotation_only_while_recording_witness :
    ((chunkTick recStart).chunkIndex = recStart.chunkIndex + 1
      ∧ (chunkTick recStart).chunks
          = recStart.chunks ++ [chunkName (recStart.chunkIndex + 1)])
    ∧ (List.foldl recStep (recStep recStart RecEvent.endSignal)
          [RecEvent.tick, RecEvent.tick]).chunks
        = (recStep recStart RecEvent.endSignal).chunks :=
  ⟨C8_rotation_only_while_recording.1 recStart (by decide) (by decide),
   C8_rotation_only_while_recording.2.2.2 (recStep recStart RecEvent.endSignal)
     [RecEvent.tick, RecEvent.tick] (by decide)⟩

end BotService
